import Mathlib

/-!
Verification of the line-search CLI (`src/main.rs`, "Option 8" build).

The live code path of `main` is:
 1. parse args into `Cli { pattern, path }`;
 2. print four diagnostic lines to stdout (pattern, path in debug form,
    the args struct in debug form, the args struct in display form);
 3. open the file; on failure return a `FileOpenError`-style anyhow error
    whose context message is the ANSI-red string
    `Optoin 8: could not open file: {path:?}!` (sic);
 4. iterate `buf_reader.lines()`; each item is `Result<String, io::Error>`
    with the line terminator already stripped; on `Err` return an anyhow
    error with context `Could not read line from file!` wrapping the cause;
 5. for each line with `line.contains(&args.pattern)`, write
    `Match {match_index}: {line}\n` to the buffered stdout writer and
    increment `match_index` (initially 0);
 6. flush and return `Ok(())`.

The embedding below is a direct translation.  File-system effects are
passed in as data: the result of `File::open` plus `.lines()` is a
`Except String (List (Except String String))` — either an open failure
with its OS cause, or the stream of per-line read results.  Stdout is the
returned list of output lines (each `println!`/`write!` call ends in a
single newline, so one call = one line).  Matches written to the
`BufWriter` before an early error return do reach stdout: `BufWriter`
flushes its buffer when dropped, so the model keeps them in the output.
-/

/-- The parsed command-line arguments (struct `Cli` in the source).
`path` is kept as a plain string. -/
structure Cli where
  pattern : String
  path : String
deriving DecidableEq

/-- Rust `Debug` form of a `String`/`PathBuf`: the text surrounded by
double quotes (escaping is not modelled; all inputs used here are plain). -/
def rustDebugStr (s : String) : String :=
  "\"" ++ s ++ "\""

/-- Rust `Debug` form of the `Cli` struct, as `derive(Debug)` prints it. -/
def cliDebug (args : Cli) : String :=
  "Cli \x7b pattern: " ++ rustDebugStr args.pattern ++ ", path: " ++
    rustDebugStr args.path ++ " \x7d"

/-- The `Display` impl for `Cli` (lines 24-29 of the source). -/
def cliDisplay (args : Cli) : String :=
  "This is the pattern: " ++ args.pattern ++ " and this is the path: " ++
    rustDebugStr args.path

/-- The four diagnostic lines `main` prints to stdout before touching the
file (lines 52-57 of the source). -/
def diagnosticLines (args : Cli) : List String :=
  [ "Pattern: " ++ args.pattern
  , "Path (debug form): " ++ rustDebugStr args.path
  , "Cli args struct (debug): " ++ cliDebug args
  , "Cli args struct (display): " ++ cliDisplay args ]

/-- `ansi_term::Colour::Red.paint`: wraps the text in the ANSI escape
sequences for red (line 157 of the source). -/
def ansiRed (s : String) : String :=
  "\x1b[31m" ++ s ++ "\x1b[0m"

/-- The context message attached to a file-open failure
(lines 154-158 of the source; the typo "Optoin" is in the source). -/
def openErrorText (path : String) : String :=
  ansiRed ("Optoin 8: could not open file: " ++ rustDebugStr path ++ "!")

/-- The context message attached to a line-read failure (line 195). -/
def readErrorText : String :=
  "Could not read line from file!"

/-- The two ways a run can fail, mirroring the anyhow error chains the
source builds: a context message plus the underlying cause. -/
inductive SearchError where
  | fileOpenError (message : String) (cause : String)
  | lineReadError (message : String) (cause : String)
deriving DecidableEq

/-- Whether the character list `pat` occurs at the very start of `l`
(char-by-char literal comparison). -/
def patAtStart : List Char → List Char → Bool
  | [], _ => true
  | _ :: _, [] => false
  | p :: ps, c :: cs => (p = c) && patAtStart ps cs

/-- Whether `pat` occurs as a contiguous sublist of `l`: the naive scan
over every suffix. -/
def containsAt (pat : List Char) : List Char → Bool
  | [] => patAtStart pat []
  | c :: cs => patAtStart pat (c :: cs) || containsAt pat cs

/-- Rust `str::contains` with a literal string pattern: case-sensitive
contiguous-substring test (line 197 of the source). -/
def strContains (line pat : String) : Bool :=
  containsAt pat.data line.data

/-- One `write!(buf_writer, "Match {}: {}\n", match_index, line)` call,
recorded with its two arguments (lines 198-199 of the source). -/
structure MatchEvent where
  idx : Nat
  line : String
deriving DecidableEq

/-- The stdout line produced by one match event.  The format string ends
in `\n`, so each event is exactly one line of output. -/
def renderMatch (e : MatchEvent) : String :=
  "Match " ++ Nat.repr e.idx ++ ": " ++ e.line

/-- The `for line in buf_reader.lines()` loop (lines 183-201 of the
source), threading `match_index`.  Returns the match events written and
either the final value of `match_index` or the error that aborted the
loop.  On a read error the loop stops at once (`?` on line 195): events
from earlier lines are kept — the `BufWriter` flushes them on drop — and
no later element of the stream is examined. -/
def searchLines (pat : String) :
    List (Except String String) → Nat → List MatchEvent × Except SearchError Nat
  | [], idx => ([], Except.ok idx)
  | Except.error cause :: _, _ =>
      ([], Except.error (SearchError.lineReadError readErrorText cause))
  | Except.ok line :: rest, idx =>
      if strContains line pat then
        let r := searchLines pat rest (idx + 1)
        (⟨idx, line⟩ :: r.1, r.2)
      else
        searchLines pat rest idx

/-- The whole of `main` after argument parsing: the stdout lines it
produces and its `Result` value.  `file` stands for the outcome of
`File::open(&args.path)` followed by `.lines()`.  Note the success value
is `Unit`: the source returns `Ok(())`, not the match count. -/
def mainRun (args : Cli) (file : Except String (List (Except String String))) :
    List String × Except SearchError Unit :=
  match file with
  | Except.error cause =>
      (diagnosticLines args,
       Except.error (SearchError.fileOpenError (openErrorText args.path) cause))
  | Except.ok stream =>
      let r := searchLines args.pattern stream 0
      (diagnosticLines args ++ r.1.map renderMatch, r.2.map fun _ => ())

/-- Exit code of the process: a Rust `main` returning `Result` exits 0 on
`Ok` and 1 on `Err`. -/
def exitCode (r : Except SearchError Unit) : Nat :=
  match r with
  | Except.ok _ => 0
  | Except.error _ => 1

/-- Spec-side definition (section 8 of the spec): the subsequence of the
file's lines, in original order, for which `line.contains(P)` holds. -/
def specMatchingLines (pat : String) (lines : List String) : List String :=
  lines.filter fun l => strContains l pat

/-- Helper: the loop restricted to a stream in which every read succeeds,
returning the events and the final `match_index`. -/
def goodEvents (pat : String) : List String → Nat → List MatchEvent × Nat
  | [], idx => ([], idx)
  | l :: ls, idx =>
      if strContains l pat then
        let r := goodEvents pat ls (idx + 1)
        (⟨idx, l⟩ :: r.1, r.2)
      else
        goodEvents pat ls idx

theorem searchLines_map_ok (pat : String) (ls : List String) (idx : Nat) :
    searchLines pat (ls.map Except.ok) idx =
      ((goodEvents pat ls idx).1, Except.ok (goodEvents pat ls idx).2) := by
  induction ls generalizing idx with
  | nil => rfl
  | cons l ls ih =>
      simp only [List.map_cons, searchLines, goodEvents]
      by_cases h : strContains l pat
      · simp [h, ih]
      · simp [h, ih]

theorem searchLines_ok_append (pat : String) (ls : List String)
    (rest : List (Except String String)) (idx : Nat) :
    searchLines pat (ls.map Except.ok ++ rest) idx =
      ((goodEvents pat ls idx).1 ++
         (searchLines pat rest (goodEvents pat ls idx).2).1,
       (searchLines pat rest (goodEvents pat ls idx).2).2) := by
  induction ls generalizing idx with
  | nil => rfl
  | cons l ls ih =>
      simp only [List.map_cons, List.cons_append, searchLines, goodEvents]
      by_cases h : strContains l pat
      · simp [h, ih]
      · simp [h, ih]

theorem goodEvents_map_line (pat : String) (ls : List String) (idx : Nat) :
    (goodEvents pat ls idx).1.map MatchEvent.line = specMatchingLines pat ls := by
  induction ls generalizing idx with
  | nil => rfl
  | cons l ls ih =>
      simp only [goodEvents, specMatchingLines, List.filter]
      by_cases h : strContains l pat
      · simp [h, ih, specMatchingLines]
      · simpa [h, specMatchingLines] using ih idx

theorem goodEvents_final (pat : String) (ls : List String) (idx : Nat) :
    (goodEvents pat ls idx).2 = idx + (goodEvents pat ls idx).1.length := by
  induction ls generalizing idx with
  | nil => simp [goodEvents]
  | cons l ls ih =>
      simp only [goodEvents]
      by_cases h : strContains l pat
      · simp [h, ih (idx + 1)]
        omega
      · simp [h, ih idx]

theorem goodEvents_map_idx (pat : String) (ls : List String) (idx : Nat) :
    (goodEvents pat ls idx).1.map MatchEvent.idx =
      List.range' idx (goodEvents pat ls idx).1.length := by
  induction ls generalizing idx with
  | nil => rfl
  | cons l ls ih =>
      simp only [goodEvents]
      by_cases h : strContains l pat
      · simp [h, List.range'_succ, ih (idx + 1)]
      · simp [h, ih idx]

theorem patAtStart_self_append (p t : List Char) :
    patAtStart p (p ++ t) = true := by
  induction p with
  | nil => rfl
  | cons c cs ih => simp [patAtStart, ih]

theorem containsAt_self_append (pat post : List Char) :
    containsAt pat (pat ++ post) = true := by
  cases pat with
  | nil =>
      cases post with
      | nil => rfl
      | cons c cs => simp [containsAt, patAtStart]
  | cons p ps =>
      have h := patAtStart_self_append (p :: ps) post
      simp only [List.cons_append] at h ⊢
      simp [containsAt, h]

theorem containsAt_of_append (pat pre post : List Char) :
    containsAt pat (pre ++ (pat ++ post)) = true := by
  induction pre with
  | nil => simpa using containsAt_self_append pat post
  | cons c cs ih => simp [containsAt, ih]

theorem strContains_of_parts (a p b : String) :
    strContains (a ++ p ++ b) p = true := by
  simp only [strContains, String.data_append, List.append_assoc]
  exact containsAt_of_append p.data a.data b.data

theorem strContains_empty_pat (l : String) : strContains l "" = true := by
  cases h : l.data with
  | nil => simp [strContains, h, containsAt, patAtStart]
  | cons c cs => simp [strContains, h, containsAt, patAtStart]

theorem specMatchingLines_empty_pat (ls : List String) :
    specMatchingLines "" ls = ls := by
  rw [specMatchingLines, List.filter_eq_self]
  intro a _
  exact strContains_empty_pat a

theorem goodEvents_render (pat : String) (ls : List String) (idx : Nat) :
    (goodEvents pat ls idx).1.map renderMatch =
      (List.enumFrom idx (specMatchingLines pat ls)).map
        (fun p => "Match " ++ Nat.repr p.1 ++ ": " ++ p.2) := by
  induction ls generalizing idx with
  | nil => rfl
  | cons l ls ih =>
      simp only [goodEvents, specMatchingLines, List.filter]
      by_cases h : strContains l pat
      · simp [h, List.enumFrom, ih (idx + 1), renderMatch, specMatchingLines]
      · simpa [h, specMatchingLines] using ih idx

theorem containsAt_append_left (pat x l : List Char) (h : containsAt pat l = true) :
    containsAt pat (x ++ l) = true := by
  induction x with
  | nil => simpa using h
  | cons c cs ih => simp [containsAt, ih]

theorem openErrorText_contains_path (p : String) :
    strContains (openErrorText p) p = true := by
  rw [strContains]
  simp only [openErrorText, ansiRed, rustDebugStr, String.data_append, List.append_assoc]
  apply containsAt_append_left
  apply containsAt_append_left
  apply containsAt_append_left
  exact containsAt_self_append _ _

theorem renderMatch_not_diagnostic (args : Cli) (e : MatchEvent) :
    renderMatch e ∉ diagnosticLines args := by
  intro hmem
  have hM : (renderMatch e).data.head? = some 'M' := rfl
  simp only [diagnosticLines, List.mem_cons, List.not_mem_nil, or_false] at hmem
  rcases hmem with h | h | h | h
  · have hh : ("Pattern: " ++ args.pattern).data.head? = some 'P' := rfl
    rw [h, hh] at hM
    simp at hM
  · have hh : ("Path (debug form): " ++ rustDebugStr args.path).data.head? = some 'P' := rfl
    rw [h, hh] at hM
    simp at hM
  · have hh : ("Cli args struct (debug): " ++ cliDebug args).data.head? = some 'C' := rfl
    rw [h, hh] at hM
    simp at hM
  · have hh : ("Cli args struct (display): " ++ cliDisplay args).data.head? = some 'C' := rfl
    rw [h, hh] at hM
    simp at hM

theorem searchLines_map_idx (pat : String) (stream : List (Except String String)) (idx : Nat) :
    ((searchLines pat stream idx).1).map MatchEvent.idx =
      List.range' idx ((searchLines pat stream idx).1).length := by
  induction stream generalizing idx with
  | nil => rfl
  | cons hd tl ih =>
      cases hd with
      | error cause => rfl
      | ok line =>
          simp only [searchLines]
          by_cases h : strContains line pat
          · simp [h, List.range'_succ, ih (idx + 1)]
          · simp [h, ih idx]

/-- Running the program twice on the same arguments and the same file
contents (section 8 of the spec: "running the search twice on an
unmodified file with the same pattern"). -/
def runTwice (args : Cli) (file : Except String (List (Except String String))) :
    (List String × Except SearchError Unit) × (List String × Except SearchError Unit) :=
  (mainRun args file, mainRun args file)

/-- Claim C1: for every file (sequence of successfully read lines) and
every pattern, the lines the program emits as matches are exactly the
subsequence of the file's lines, in original order, that contain the
pattern as a literal, case-sensitive, contiguous substring; no other line
is emitted. -/
theorem claim_C1_matches_eq_spec (pat : String) (lines : List String) :
    ((searchLines pat (lines.map Except.ok) 0).1).map MatchEvent.line =
      specMatchingLines pat lines := by
  rw [searchLines_map_ok]
  exact goodEvents_map_line pat lines 0

/-- Claim C2, counterexample: the run's success value does not carry the
match count.  Two successful runs, one with two matches and one with none,
return the very same success value `Except.ok ()`, so the success value
cannot equal the total count of matching lines. -/
theorem claim_C2_counterexample :
    (mainRun ⟨"app", "fruits.txt"⟩
        (Except.ok (["apple", "banana", "applesauce", "grape"].map Except.ok))).2 =
      (mainRun ⟨"baz", "foo.txt"⟩ (Except.ok (["foo", "bar"].map Except.ok))).2
    ∧ (specMatchingLines "app" ["apple", "banana", "applesauce", "grape"]).length = 2
    ∧ (specMatchingLines "baz" ["foo", "bar"]).length = 0 :=
  ⟨rfl, by decide, by decide⟩

/-- Claim C2, amended: for every successful run (file opened and every
line read without error) the run returns success carrying no count — the
source returns `Ok(())`, the count lives only in the local `match_index` —
and in particular a run with zero matches (any `lines`, including ones
with no match) is a success, not an error. -/
theorem claim_C2_success_is_unit (args : Cli) (lines : List String) :
    (mainRun args (Except.ok (lines.map Except.ok))).2 = Except.ok () := by
  simp [mainRun, searchLines_map_ok, Except.map]

/-- Claim C3, counterexample: on an empty file there are no matching
lines, so under the claim stdout would be empty; the program nevertheless
writes its four diagnostic lines to stdout before touching the file. -/
theorem claim_C3_counterexample :
    ((searchLines "x" [] 0).1).map renderMatch = ([] : List String)
    ∧ (mainRun ⟨"x", "empty.txt"⟩ (Except.ok [])).1 ≠ ([] : List String) :=
  ⟨rfl, by decide⟩

/-- Claim C3, amended: on every successful run, stdout is exactly the four
diagnostic lines (pattern, path in debug form, the args struct in debug
and display form) followed by one output line per matching line of the
file, in file order, and nothing else; the result is success. -/
theorem claim_C3_stdout_frame (args : Cli) (lines : List String) :
    mainRun args (Except.ok (lines.map Except.ok)) =
      (diagnosticLines args ++
         (List.enumFrom 0 (specMatchingLines args.pattern lines)).map
           (fun p => "Match " ++ Nat.repr p.1 ++ ": " ++ p.2),
       Except.ok ()) := by
  simp [mainRun, searchLines_map_ok, goodEvents_render, Except.map]

/-- Claim C4: for every path whose open fails, the run fails with a
file-open error before reading any line; the error message references the
given path as a substring; the exit code is non-zero (1); and no match
line is printed (stdout is the diagnostic lines only). -/
theorem claim_C4_missing_file (args : Cli) (cause : String) :
    mainRun args (Except.error cause) =
      (diagnosticLines args,
       Except.error (SearchError.fileOpenError (openErrorText args.path) cause))
    ∧ strContains (openErrorText args.path) args.path = true
    ∧ exitCode (mainRun args (Except.error cause)).2 = 1
    ∧ ∀ e : MatchEvent, renderMatch e ∉ (mainRun args (Except.error cause)).1 := by
  refine ⟨rfl, openErrorText_contains_path args.path, rfl, ?_⟩
  intro e
  exact renderMatch_not_diagnostic args e

/-- Claim C5: when reading some line fails, the run aborts at that line
with a line-read error carrying the underlying cause and exits non-zero;
no line after the failing one is tested or printed (the output does not
depend on `rest`), the failing line is not silently skipped, and every
match before the failing line is in the stdout output. -/
theorem claim_C5_read_error_aborts (args : Cli) (good : List String)
    (cause : String) (rest : List (Except String String)) :
    mainRun args (Except.ok (good.map Except.ok ++ (Except.error cause :: rest))) =
      (diagnosticLines args ++
         (List.enumFrom 0 (specMatchingLines args.pattern good)).map
           (fun p => "Match " ++ Nat.repr p.1 ++ ": " ++ p.2),
       Except.error (SearchError.lineReadError readErrorText cause))
    ∧ exitCode (mainRun args
        (Except.ok (good.map Except.ok ++ (Except.error cause :: rest)))).2 = 1 := by
  constructor
  · simp [mainRun, searchLines_ok_append, searchLines, goodEvents_render, Except.map]
  · simp [mainRun, searchLines_ok_append, searchLines, exitCode, Except.map]

/-- Claim C6: with the empty pattern every line of the file is emitted as
a match, and the final match counter equals the number of lines. -/
theorem claim_C6_empty_pattern (lines : List String) :
    ((searchLines "" (lines.map Except.ok) 0).1).map MatchEvent.line = lines
    ∧ (searchLines "" (lines.map Except.ok) 0).2 = Except.ok lines.length := by
  constructor
  · rw [searchLines_map_ok]
    rw [goodEvents_map_line, specMatchingLines_empty_pat]
  · rw [searchLines_map_ok, goodEvents_final]
    have h1 : ((goodEvents "" lines 0).1).length = lines.length := by
      have h2 := congrArg List.length (goodEvents_map_line "" lines 0)
      simpa [specMatchingLines_empty_pat] using h2
    simp [h1]

/-- Claim C7, counterexample: on the file with lines "apple", "banana",
"applesauce", "grape" and pattern "app", stdout is not the two raw lines
"apple", "applesauce": the program prints four diagnostic lines first and
decorates each match as `Match i: line`. -/
theorem claim_C7_counterexample :
    (mainRun ⟨"app", "fruits.txt"⟩
        (Except.ok (["apple", "banana", "applesauce", "grape"].map Except.ok))).1 ≠
      ["apple", "applesauce"] := by decide

/-- Claim C7, amended: on that input the run succeeds (exit code 0) and
stdout is the four diagnostic lines followed by exactly "Match 0: apple"
and "Match 1: applesauce", in that order. -/
theorem claim_C7_fruits_run :
    mainRun ⟨"app", "fruits.txt"⟩
        (Except.ok (["apple", "banana", "applesauce", "grape"].map Except.ok)) =
      (diagnosticLines ⟨"app", "fruits.txt"⟩ ++
         ["Match 0: apple", "Match 1: applesauce"],
       Except.ok ())
    ∧ exitCode (mainRun ⟨"app", "fruits.txt"⟩
        (Except.ok (["apple", "banana", "applesauce", "grape"].map Except.ok))).2 = 0 :=
  ⟨rfl, rfl⟩

/-- Claim C8: the search is deterministic — running it twice on the same
pattern and the same unmodified file contents produces identical output
(both stdout and result). -/
theorem claim_C8_deterministic (args : Cli)
    (file : Except String (List (Except String String))) :
    (runTwice args file).1 = (runTwice args file).2 := rfl

/-- Claim C9: in every run (even one aborted by a read error) the match
index starts at 0 and is incremented exactly once per emitted match and
never otherwise: the indices of the emitted matches, in emission order,
are exactly 0, 1, 2, ..., so at every point the index equals the number of
matches emitted so far. -/
theorem claim_C9_match_index (pat : String)
    (stream : List (Except String String)) :
    ((searchLines pat stream 0).1).map MatchEvent.idx =
      List.range ((searchLines pat stream 0).1).length := by
  rw [List.range_eq_range']
  exact searchLines_map_idx pat stream 0

/-- Claim C10: every emitted match line has exactly the form
`Match i: line` where `line` is the matching file line (terminator already
stripped by the line reader) and `i` is the number of matches emitted
before it: the rendered output is the enumeration of the matching lines,
so the printed indices are the consecutive integers 0, 1, 2, .... -/
theorem claim_C10_output_format (pat : String) (lines : List String) :
    ((searchLines pat (lines.map Except.ok) 0).1).map renderMatch =
      (List.enum (specMatchingLines pat lines)).map
        (fun p => "Match " ++ Nat.repr p.1 ++ ": " ++ p.2) := by
  rw [searchLines_map_ok]
  exact goodEvents_render pat lines 0
